import Mathlib

/-!
Shallow embedding of the Edgeware tipbot ink! contract (src/lib.rs).

The contract storage holds an owner, two mirrored binding maps between
account ids and telegram ids, and a balance ledger.  The ink! storage
hash maps are modelled as functions into `Option`; `u128` balances are
modelled as `Nat`.  The one place where a `u128` addition can overflow
(the deposit credit in `bind`, src/lib.rs line 164) carries an explicit
bound check, see the doc comment on `Tipbot.bind`.

Every public message of the contract signals failure by panicking (the
`panic_on_err` macro of the source), and the ink! execution environment
rolls back every storage mutation of an aborted call.  An operation is
therefore modelled as a function from the pre-state to an `Outcome`:
`ok s l` commits the post-state `s` together with the list `l` of
external value transfers the call performed, `err e` aborts with the
typed error `e` and by the rollback guarantee leaves the contract state
exactly as it was, and `abort` is a panic corresponding to no typed
error (arithmetic overflow, or the `expect` on a broken internal
invariant in `unbind_account`).  The external value-transfer primitive
`self.env().transfer` is modelled by an oracle
`tr : AccountId → Balance → Bool` saying whether a transfer of a given
amount to a given account succeeds.
-/

/-- `AccountId` of the ink! environment: an opaque identity. -/
abbrev AccountId := Nat

/-- `type TelegramId = u32` (src/lib.rs line 56): an opaque numeric id. -/
abbrev TelegramId := Nat

/-- `Balance` of the ink! environment: `u128`. -/
abbrev Balance := Nat

/-- `HashMap::insert` as a map update on the functional model. -/
def insertMap {α β : Type} [DecidableEq α] (m : α → Option β) (k : α) (v : β) :
    α → Option β :=
  fun x => if x = k then some v else m x

/-- `HashMap::take` (removal) on the functional model. -/
def removeMap {α β : Type} [DecidableEq α] (m : α → Option β) (k : α) :
    α → Option β :=
  fun x => if x = k then none else m x

/-- The contract storage (src/lib.rs lines 59-66). -/
@[ext]
structure Tipbot where
  owner : AccountId
  address_tg : AccountId → Option TelegramId
  tg_address : TelegramId → Option AccountId
  balances : AccountId → Option Balance

/-- The error cases (src/lib.rs lines 71-87). -/
inductive Error where
  | AlreadyBounded
  | NotAllowed
  | NotFound
  | TransferFailed
  | InsufficientFunds
  | BelowSubsistenceThreshold
deriving DecidableEq

/-- Result of one public contract call: a committed post-state together
with the external transfers performed, a typed failure (all storage
mutations rolled back by the environment), or an untyped panic. -/
inductive Outcome where
  | ok (s : Tipbot) (transfers : List (AccountId × Balance))
  | err (e : Error)
  | abort

namespace Tipbot

/-- `Tipbot::new` (src/lib.rs lines 94-101). -/
def new (caller : AccountId) : Tipbot :=
  { owner := caller
    address_tg := fun _ => none
    tg_address := fun _ => none
    balances := fun _ => none }

/-- `Tipbot::telegram_id_of` (src/lib.rs lines 107-113), with the
caller-defaulting already resolved to a concrete account. -/
def telegram_id_of (s : Tipbot) (account : AccountId) : Option TelegramId :=
  s.address_tg account

/-- `Tipbot::address_of` (src/lib.rs lines 117-119). -/
def address_of (s : Tipbot) (tg_id : TelegramId) : Option AccountId :=
  s.tg_address tg_id

/-- `Tipbot::balance_of` (src/lib.rs lines 123-129). -/
def balance_of (s : Tipbot) (tg_id : TelegramId) : Balance :=
  match s.tg_address tg_id with
  | some a => (s.balances a).getD 0
  | none => 0

/-- The registry update performed by `bind` after the `AlreadyBounded`
check (src/lib.rs lines 144-157): insert the new `tg_id ↦ caller`
reverse entry, dropping the forward entry of any previous holder of
`tg_id` (dead code under the guard), then insert `caller ↦ tg_id`
forward, freeing the telegram id the caller previously held. -/
def regBind (addr : AccountId → Option TelegramId)
    (tga : TelegramId → Option AccountId)
    (caller : AccountId) (tg_id : TelegramId) :
    (AccountId → Option TelegramId) × (TelegramId → Option AccountId) :=
  let tga1 := insertMap tga tg_id caller
  let adr1 :=
    match tga tg_id with
    | some oldCaller => removeMap addr oldCaller
    | none => addr
  let adr2 := insertMap adr1 caller tg_id
  let tga2 :=
    match adr1 caller with
    | some oldTg => removeMap tga1 oldTg
    | none => tga1
  (adr2, tga2)

/-- `Tipbot::bind` (src/lib.rs lines 137-168).  `deposit` is the value
of `self.env().transferred_balance()`.

The deposit credit `*v += balance` (line 164) is a `u128` addition
whose overflow behaviour is fixed by the build profile, which is not
part of src/.  Modelled from the spec: credit rejects an addition that
would exceed the maximum `u128` balance, aborting the call instead of
silently wrapping (spec sections 4.2 and 7). -/
def bind (s : Tipbot) (caller : AccountId) (tg_id : TelegramId)
    (deposit : Balance) : Outcome :=
  if (s.tg_address tg_id).isSome then .err .AlreadyBounded
  else
    let maps := regBind s.address_tg s.tg_address caller tg_id
    if 0 < deposit then
      match s.balances caller with
      | some v =>
        if v + deposit < 2 ^ 128 then
          .ok { s with
                  address_tg := maps.1
                  tg_address := maps.2
                  balances := insertMap s.balances caller (v + deposit) } []
        else .abort
      | none =>
        .ok { s with
                address_tg := maps.1
                tg_address := maps.2
                balances := insertMap s.balances caller deposit } []
    else .ok { s with address_tg := maps.1, tg_address := maps.2 } []

/-- `Tipbot::unbind_account` (src/lib.rs lines 253-272): remove both
directions of the binding, then pay the caller's whole ledger entry
back through the external transfer primitive if the entry exists.  The
`expect` on the reverse entry (line 264) is a panic, hence `abort`;
a failing transfer aborts with `BelowSubsistenceThreshold` and the
environment rolls the removals back. -/
def unbind_account (s : Tipbot) (tr : AccountId → Balance → Bool)
    (account : AccountId) : Outcome :=
  match s.address_tg account with
  | none => .err .NotFound
  | some tg_id =>
    match s.tg_address tg_id with
    | none => .abort
    | some _ =>
      match s.balances account with
      | some v =>
        if tr account v then
          .ok { s with
                  address_tg := removeMap s.address_tg account
                  tg_address := removeMap s.tg_address tg_id
                  balances := removeMap s.balances account } [(account, v)]
        else .err .BelowSubsistenceThreshold
      | none =>
        .ok { s with
                address_tg := removeMap s.address_tg account
                tg_address := removeMap s.tg_address tg_id } []

/-- `Tipbot::tip_account` (src/lib.rs lines 274-294): debit the caller's
ledger entry, then pay the amount to the target through the external
transfer primitive; a failing transfer aborts with
`BelowSubsistenceThreshold` and the debit is rolled back. -/
def tip_account (s : Tipbot) (tr : AccountId → Balance → Bool)
    (caller target : AccountId) (amount : Balance) : Outcome :=
  match s.balances caller with
  | some v =>
    if amount ≤ v then
      if tr target amount then
        .ok { s with balances := insertMap s.balances caller (v - amount) }
          [(target, amount)]
      else .err .BelowSubsistenceThreshold
    else .err .InsufficientFunds
  | none => .err .InsufficientFunds

/-- `Tipbot::unbind` (src/lib.rs lines 177-180). -/
def unbind (s : Tipbot) (tr : AccountId → Balance → Bool)
    (caller : AccountId) : Outcome :=
  unbind_account s tr caller

/-- `Tipbot::force_unbind` (src/lib.rs lines 191-197): owner-gated
`unbind_account`. -/
def force_unbind (s : Tipbot) (tr : AccountId → Balance → Bool)
    (caller account : AccountId) : Outcome :=
  if caller = s.owner then unbind_account s tr account
  else .err .NotAllowed

/-- `Tipbot::tip` (src/lib.rs lines 212-226): both the caller's own
binding and the target telegram id must resolve, else `NotFound`. -/
def tip (s : Tipbot) (tr : AccountId → Balance → Bool)
    (caller : AccountId) (tg_id : TelegramId) (amount : Balance) : Outcome :=
  match s.address_tg caller, s.tg_address tg_id with
  | some _, some target => tip_account s tr caller target amount
  | some _, none => .err .NotFound
  | none, _ => .err .NotFound

/-- `Tipbot::tip_from` (src/lib.rs lines 239-251): owner-gated; both
telegram ids must resolve, else `NotFound`. -/
def tip_from (s : Tipbot) (tr : AccountId → Balance → Bool)
    (caller : AccountId) (fromTg toTg : TelegramId) (amount : Balance) :
    Outcome :=
  if caller = s.owner then
    match s.tg_address fromTg, s.tg_address toTg with
    | some fromAcc, some toAcc => tip_account s tr fromAcc toAcc amount
    | some _, none => .err .NotFound
    | none, _ => .err .NotFound
  else .err .NotAllowed

end Tipbot

/-- Projection: the committed post-state of a successful outcome. -/
def okState : Outcome → Option Tipbot
  | .ok s _ => some s
  | _ => none

/-- Whether the outcome committed. -/
def isOk (o : Outcome) : Bool :=
  (okState o).isSome

/-- Projection: the external transfers of a successful outcome. -/
def okTransfers : Outcome → Option (List (AccountId × Balance))
  | .ok _ l => some l
  | _ => none

/-- Forward binding lookup in the committed post-state. -/
def okAddressTg (o : Outcome) (a : AccountId) : Option (Option TelegramId) :=
  (okState o).map fun s => s.address_tg a

/-- Reverse binding lookup in the committed post-state. -/
def okWalletOf (o : Outcome) (p : TelegramId) : Option (Option AccountId) :=
  (okState o).map fun s => s.tg_address p

/-- Ledger entry lookup in the committed post-state. -/
def okBalances (o : Outcome) (a : AccountId) : Option (Option Balance) :=
  (okState o).map fun s => s.balances a

/-- `balance_of` in the committed post-state. -/
def okBalanceOfTg (o : Outcome) (p : TelegramId) : Option Balance :=
  (okState o).map fun s => Tipbot.balance_of s p

/-- The whole forward binding map of the committed post-state. -/
def okAddrMap (o : Outcome) : Option (AccountId → Option TelegramId) :=
  (okState o).map fun s => s.address_tg

/-- The whole reverse binding map of the committed post-state. -/
def okTgMap (o : Outcome) : Option (TelegramId → Option AccountId) :=
  (okState o).map fun s => s.tg_address

/-- A transfer oracle under which every external transfer succeeds. -/
def trueTransfer : AccountId → Balance → Bool := fun _ _ => true

/-- A transfer oracle under which every external transfer fails. -/
def falseTransfer : AccountId → Balance → Bool := fun _ _ => false

/-- `bind` followed immediately by `unbind` with a zero deposit. -/
def roundTrip (s : Tipbot) (tr : AccountId → Balance → Bool)
    (caller : AccountId) (tg_id : TelegramId) : Outcome :=
  match Tipbot.bind s caller tg_id 0 with
  | .ok s1 _ => Tipbot.unbind s1 tr caller
  | o => o

/-- One public operation of the contract, taken with an arbitrary
caller, arbitrary arguments, arbitrary attached deposit and arbitrary
behaviour of the external transfer primitive, committing successfully. -/
inductive Step : Tipbot → Tipbot → Prop
  | bind (c : AccountId) (tg : TelegramId) (d : Balance) (s s' : Tipbot)
      (l : List (AccountId × Balance)) :
      Tipbot.bind s c tg d = .ok s' l → Step s s'
  | unbind (tr : AccountId → Balance → Bool) (c : AccountId)
      (s s' : Tipbot) (l : List (AccountId × Balance)) :
      Tipbot.unbind s tr c = .ok s' l → Step s s'
  | force_unbind (tr : AccountId → Balance → Bool) (c a : AccountId)
      (s s' : Tipbot) (l : List (AccountId × Balance)) :
      Tipbot.force_unbind s tr c a = .ok s' l → Step s s'
  | tip (tr : AccountId → Balance → Bool) (c : AccountId) (tg : TelegramId)
      (amt : Balance) (s s' : Tipbot) (l : List (AccountId × Balance)) :
      Tipbot.tip s tr c tg amt = .ok s' l → Step s s'
  | tip_from (tr : AccountId → Balance → Bool) (c : AccountId)
      (f t : TelegramId) (amt : Balance) (s s' : Tipbot)
      (l : List (AccountId × Balance)) :
      Tipbot.tip_from s tr c f t amt = .ok s' l → Step s s'

/-- States reachable from a freshly constructed contract by any
sequence of successful public operations. -/
inductive Reachable : Tipbot → Prop
  | new (c : AccountId) : Reachable (Tipbot.new c)
  | step {s s' : Tipbot} : Reachable s → Step s s' → Reachable s'

/-- The bijection invariant on the two binding maps. -/
def BijInv (s : Tipbot) : Prop :=
  ∀ w p, s.address_tg w = some p ↔ s.tg_address p = some w

/-- Forward map after a successful `bind` by `c` of `tg`. -/
def bindAddr (s : Tipbot) (c : AccountId) (tg : TelegramId) :
    AccountId → Option TelegramId :=
  insertMap s.address_tg c tg

/-- Reverse map after a successful `bind` by `c` of `tg`. -/
def bindTga (s : Tipbot) (c : AccountId) (tg : TelegramId) :
    TelegramId → Option AccountId :=
  match s.address_tg c with
  | some ot => removeMap (insertMap s.tg_address tg c) ot
  | none => insertMap s.tg_address tg c

/-- Ledger after a successful `bind` by `c` with deposit `d`. -/
def bindBal (s : Tipbot) (c : AccountId) (d : Balance) :
    AccountId → Option Balance :=
  if 0 < d then
    match s.balances c with
    | some v => insertMap s.balances c (v + d)
    | none => insertMap s.balances c d
  else s.balances

theorem bind_ok {s : Tipbot} {c : AccountId} {tg : TelegramId} {d : Balance}
    {s' : Tipbot} {l : List (AccountId × Balance)}
    (h : Tipbot.bind s c tg d = .ok s' l) :
    s.tg_address tg = none ∧ l = [] ∧
    s' = { s with
             address_tg := bindAddr s c tg
             tg_address := bindTga s c tg
             balances := bindBal s c d } := by
  unfold Tipbot.bind Tipbot.regBind at h
  cases htg : s.tg_address tg with
  | some a => rw [htg] at h; simp at h
  | none =>
    rw [htg] at h
    simp only [Option.isSome_none, Bool.false_eq_true, if_false] at h
    refine ⟨rfl, ?_⟩
    unfold bindAddr bindTga bindBal
    by_cases hd : 0 < d
    · rw [if_pos hd] at h ⊢
      split at h
      · rename_i v hb
        split at h
        · injection h with h1 h2
          exact ⟨h2.symm, h1.symm⟩
        · exact Outcome.noConfusion h
      · rename_i hb
        injection h with h1 h2
        exact ⟨h2.symm, h1.symm⟩
    · rw [if_neg hd] at h ⊢
      injection h with h1 h2
      exact ⟨h2.symm, h1.symm⟩

theorem bijInv_bind {s : Tipbot} {c : AccountId} {tg : TelegramId}
    (hInv : BijInv s) (hfree : s.tg_address tg = none) :
    ∀ w p, bindAddr s c tg w = some p ↔ bindTga s c tg p = some w := by
  intro w p
  unfold bindAddr bindTga
  cases hac : s.address_tg c with
  | none =>
    unfold insertMap
    dsimp only
    by_cases hw : w = c <;> by_cases hp : p = tg
    · simp [hw, hp]
    · rw [if_pos hw, if_neg hp]
      constructor
      · intro hcon
        injection hcon with he
        exact absurd he.symm hp
      · intro hcon
        have hc := (hInv w p).mpr hcon
        rw [hw, hac] at hc
        cases hc
    · rw [if_neg hw, if_pos hp]
      constructor
      · intro hcon
        have hc := (hInv w p).mp hcon
        rw [hp, hfree] at hc
        cases hc
      · intro hcon
        injection hcon with he
        exact absurd he.symm hw
    · rw [if_neg hw, if_neg hp]
      exact hInv w p
  | some ot =>
    have hot : s.tg_address ot = some c := (hInv c ot).mp hac
    have hne : ot ≠ tg := by
      intro e
      rw [e, hfree] at hot
      cases hot
    unfold removeMap insertMap
    dsimp only
    by_cases hw : w = c <;> by_cases hp : p = tg <;> by_cases hpo : p = ot
    · exact absurd (hpo.symm.trans hp) hne
    · rw [if_pos hw, if_neg hpo, if_pos hp]
      constructor
      · intro _
        rw [hw]
      · intro _
        rw [hp]
    · rw [if_pos hw, if_pos hpo]
      constructor
      · intro hcon
        injection hcon with he
        exact absurd he.symm hp
      · intro hcon
        cases hcon
    · rw [if_pos hw, if_neg hpo, if_neg hp]
      constructor
      · intro hcon
        injection hcon with he
        exact absurd he.symm hp
      · intro hcon
        have hc := (hInv w p).mpr hcon
        rw [hw, hac] at hc
        injection hc with he
        exact absurd he.symm hpo
    · exact absurd (hpo.symm.trans hp) hne
    · rw [if_neg hw, if_neg hpo, if_pos hp]
      constructor
      · intro hcon
        have hc := (hInv w p).mp hcon
        rw [hp, hfree] at hc
        cases hc
      · intro hcon
        injection hcon with he
        exact absurd he.symm hw
    · rw [if_neg hw, if_pos hpo]
      constructor
      · intro hcon
        have hc := (hInv w p).mp hcon
        rw [hpo, hot] at hc
        injection hc with he
        exact absurd he.symm hw
      · intro hcon
        cases hcon
    · rw [if_neg hw, if_neg hpo, if_neg hp]
      exact hInv w p

theorem bijInv_unbind {s : Tipbot} {a : AccountId} {tg : TelegramId}
    (hInv : BijInv s) (ha : s.address_tg a = some tg) :
    ∀ w p, removeMap s.address_tg a w = some p ↔
      removeMap s.tg_address tg p = some w := by
  have htga : s.tg_address tg = some a := (hInv a tg).mp ha
  intro w p
  unfold removeMap
  by_cases hw : w = a <;> by_cases hp : p = tg
  · rw [if_pos hw, if_pos hp]
    constructor <;> (intro hcon; cases hcon)
  · rw [if_pos hw, if_neg hp]
    constructor
    · intro hcon
      cases hcon
    · intro hcon
      have hc := (hInv w p).mpr hcon
      rw [hw, ha] at hc
      injection hc with he
      exact absurd he.symm hp
  · rw [if_neg hw, if_pos hp]
    constructor
    · intro hcon
      have hc := (hInv w p).mp hcon
      rw [hp, htga] at hc
      injection hc with he
      exact absurd he.symm hw
    · intro hcon
      cases hcon
  · rw [if_neg hw, if_neg hp]
    exact hInv w p

theorem removeMap_absent {α β : Type} [DecidableEq α] {m : α → Option β} {k : α}
    (h : m k = none) : removeMap m k = m := by
  funext x
  unfold removeMap
  by_cases hx : x = k
  · rw [if_pos hx, hx, h]
  · rw [if_neg hx]

theorem removeMap_insertMap_absent {α β : Type} [DecidableEq α]
    {m : α → Option β} {k : α} (v : β) (h : m k = none) :
    removeMap (insertMap m k v) k = m := by
  funext x
  unfold removeMap insertMap
  by_cases hx : x = k
  · rw [if_pos hx, hx, h]
  · rw [if_neg hx, if_neg hx]

theorem insertMap_self {α β : Type} [DecidableEq α] (m : α → Option β)
    (k : α) (v : β) : insertMap m k v k = some v := by
  unfold insertMap
  rw [if_pos rfl]

theorem unbind_ok {s : Tipbot} {tr : AccountId → Balance → Bool} {a : AccountId}
    {s' : Tipbot} {l : List (AccountId × Balance)}
    (h : Tipbot.unbind_account s tr a = .ok s' l) :
    ∃ tg, s.address_tg a = some tg ∧
      s' = { s with
               address_tg := removeMap s.address_tg a
               tg_address := removeMap s.tg_address tg
               balances := removeMap s.balances a } ∧
      l = (match s.balances a with | some v => [(a, v)] | none => []) := by
  unfold Tipbot.unbind_account at h
  split at h
  · exact Outcome.noConfusion h
  · rename_i tg ha
    refine ⟨tg, ha, ?_⟩
    split at h
    · exact Outcome.noConfusion h
    · rename_i x hx
      split at h
      · rename_i v hb
        split at h
        · injection h with h1 h2
          exact ⟨h1.symm, h2.symm⟩
        · exact Outcome.noConfusion h
      · rename_i hb
        injection h with h1 h2
        rw [removeMap_absent hb]
        exact ⟨h1.symm, h2.symm⟩

theorem tip_account_ok {s : Tipbot} {tr : AccountId → Balance → Bool}
    {caller target : AccountId} {amount : Balance} {s' : Tipbot}
    {l : List (AccountId × Balance)}
    (h : Tipbot.tip_account s tr caller target amount = .ok s' l) :
    ∃ v, s.balances caller = some v ∧ amount ≤ v ∧ tr target amount = true ∧
      s' = { s with balances := insertMap s.balances caller (v - amount) } ∧
      l = [(target, amount)] := by
  unfold Tipbot.tip_account at h
  split at h
  · rename_i v hb
    split at h
    · rename_i hle
      split at h
      · rename_i htr
        injection h with h1 h2
        exact ⟨v, hb, hle, htr, h1.symm, h2.symm⟩
      · exact Outcome.noConfusion h
    · exact Outcome.noConfusion h
  · exact Outcome.noConfusion h

theorem bijInv_bind_op {s s' : Tipbot} {c : AccountId} {tg : TelegramId}
    {d : Balance} {l : List (AccountId × Balance)}
    (h : Tipbot.bind s c tg d = .ok s' l) (hInv : BijInv s) : BijInv s' := by
  obtain ⟨htg, hl, hs⟩ := bind_ok h
  subst hs
  intro w p
  exact bijInv_bind hInv htg w p

theorem bijInv_unbind_op {s s' : Tipbot} {tr : AccountId → Balance → Bool}
    {a : AccountId} {l : List (AccountId × Balance)}
    (h : Tipbot.unbind_account s tr a = .ok s' l) (hInv : BijInv s) :
    BijInv s' := by
  obtain ⟨tg, ha, hs, hl⟩ := unbind_ok h
  subst hs
  intro w p
  exact bijInv_unbind hInv ha w p

theorem bijInv_tip_account {s s' : Tipbot} {tr : AccountId → Balance → Bool}
    {caller target : AccountId} {amount : Balance}
    {l : List (AccountId × Balance)}
    (h : Tipbot.tip_account s tr caller target amount = .ok s' l)
    (hInv : BijInv s) : BijInv s' := by
  obtain ⟨v, hb, hle, htr, hs, hl⟩ := tip_account_ok h
  subst hs
  intro w p
  exact hInv w p

theorem bijInv_step {s s' : Tipbot} (h : Step s s') (hInv : BijInv s) :
    BijInv s' := by
  cases h with
  | bind c tg d s s' l hop => exact bijInv_bind_op hop hInv
  | unbind tr c s s' l hop =>
    unfold Tipbot.unbind at hop
    exact bijInv_unbind_op hop hInv
  | force_unbind tr c a s s' l hop =>
    unfold Tipbot.force_unbind at hop
    split at hop
    · exact bijInv_unbind_op hop hInv
    · exact Outcome.noConfusion hop
  | tip tr c tg amt s s' l hop =>
    unfold Tipbot.tip at hop
    split at hop
    · exact bijInv_tip_account hop hInv
    · exact Outcome.noConfusion hop
    · exact Outcome.noConfusion hop
  | tip_from tr c f t amt s s' l hop =>
    unfold Tipbot.tip_from at hop
    split at hop
    · split at hop
      · exact bijInv_tip_account hop hInv
      · exact Outcome.noConfusion hop
      · exact Outcome.noConfusion hop
    · exact Outcome.noConfusion hop

theorem bijInv_new (c : AccountId) : BijInv (Tipbot.new c) := by
  intro w p
  unfold Tipbot.new
  constructor <;> (intro h; cases h)

theorem bijInv_reachable {s : Tipbot} (h : Reachable s) : BijInv s := by
  induction h with
  | new c => exact bijInv_new c
  | step hr hstep ih => exact bijInv_step hstep ih

/-- A concrete state: wallet 1 bound to telegram id 7, empty ledger.
It is reachable: `bind` by wallet 1 of telegram id 7 with no deposit
from a fresh contract owned by wallet 0. -/
def sOne : Tipbot :=
  { owner := 0
    address_tg := insertMap (fun _ => none) 1 7
    tg_address := insertMap (fun _ => none) 7 1
    balances := fun _ => none }

/-- A concrete state: wallet 1 bound to telegram id 7 with ledger
balance 100 (reachable by `bind` with deposit 100 from a fresh
contract owned by wallet 0). -/
def sBound : Tipbot :=
  { owner := 0
    address_tg := insertMap (fun _ => none) 1 7
    tg_address := insertMap (fun _ => none) 7 1
    balances := insertMap (fun _ => none) 1 100 }

/-- A concrete state with two bound wallets: wallet 1 holds telegram
id 7 and ledger balance 100, wallet 2 holds telegram id 8 with no
ledger entry. -/
def sTwo : Tipbot :=
  { owner := 0
    address_tg := insertMap (insertMap (fun _ => none) 1 7) 2 8
    tg_address := insertMap (insertMap (fun _ => none) 7 1) 8 2
    balances := insertMap (fun _ => none) 1 100 }

/-- A concrete state whose single ledger entry sits at the maximum
`u128` value. -/
def sBig : Tipbot :=
  { owner := 0
    address_tg := insertMap (fun _ => none) 1 7
    tg_address := insertMap (fun _ => none) 7 1
    balances := insertMap (fun _ => none) 1 (2 ^ 128 - 1) }

/-- Claim C1: in every state reachable from a fresh contract by any
sequence of public operations (bind, unbind, force_unbind, tip,
tip_from), the two binding maps are exact inverses of each other: for
every wallet `w`, `address_tg w = some p` exactly when
`tg_address p = some w`; consequently no platform id maps to two
wallets and no wallet maps to two platform ids. -/
theorem bijection_invariant (s : Tipbot) (h : Reachable s) :
    (∀ w p, s.address_tg w = some p ↔ s.tg_address p = some w) ∧
    (∀ w1 w2 p, s.address_tg w1 = some p → s.address_tg w2 = some p →
      w1 = w2) ∧
    (∀ p1 p2 w, s.tg_address p1 = some w → s.tg_address p2 = some w →
      p1 = p2) := by
  have hInv := bijInv_reachable h
  refine ⟨hInv, ?_, ?_⟩
  · intro w1 w2 p h1 h2
    have e1 := (hInv w1 p).mp h1
    have e2 := (hInv w2 p).mp h2
    rw [e1] at e2
    exact Option.some.inj e2
  · intro p1 p2 w h1 h2
    have e1 := (hInv w p1).mpr h1
    have e2 := (hInv w p2).mpr h2
    rw [e1] at e2
    exact Option.some.inj e2

/-- Witness for C1: the invariant instantiated at the concrete
reachable state `sOne`, with reachability exhibited by an explicit
`bind` step from a fresh contract. -/
theorem bijection_invariant_witness :
    (∀ w p, sOne.address_tg w = some p ↔ sOne.tg_address p = some w) ∧
    (∀ w1 w2 p, sOne.address_tg w1 = some p → sOne.address_tg w2 = some p →
      w1 = w2) ∧
    (∀ p1 p2 w, sOne.tg_address p1 = some w → sOne.tg_address p2 = some w →
      p1 = p2) :=
  bijection_invariant sOne
    (Reachable.step (Reachable.new 0)
      (Step.bind 1 7 0 (Tipbot.new 0) sOne [] rfl))

theorem bind_free_not_already_bounded {s : Tipbot} {c : AccountId}
    {tg : TelegramId} {d : Balance} (htg : s.tg_address tg = none) :
    Tipbot.bind s c tg d ≠ Outcome.err Error.AlreadyBounded := by
  intro h
  unfold Tipbot.bind at h
  rw [htg] at h
  simp only [Option.isSome_none, Bool.false_eq_true, if_false] at h
  split at h
  · split at h
    · split at h
      · exact Outcome.noConfusion h
      · exact Outcome.noConfusion h
    · exact Outcome.noConfusion h
  · exact Outcome.noConfusion h

/-- Counterexample to claim C2 as stated: in the reachable state `sOne`
the telegram id 7 is bound to wallet 1 itself, yet a re-bind of 7 by
the same wallet 1 is rejected with `AlreadyBounded` — the source checks
`tg_address.contains_key` regardless of who holds the id
(src/lib.rs line 140). -/
theorem rebind_own_platform_rejected :
    sOne.tg_address 7 = some 1 ∧
    Tipbot.bind sOne 1 7 0 = .err .AlreadyBounded :=
  ⟨rfl, rfl⟩

/-- Claim C2 (amended): `bind` fails with `AlreadyBounded` exactly when
the telegram id is already bound to some wallet — any wallet, the
caller included; a caller re-binding to their own current platform id
is also rejected. -/
theorem bind_already_bounded_iff (s : Tipbot) (c : AccountId)
    (tg : TelegramId) (d : Balance) :
    Tipbot.bind s c tg d = .err .AlreadyBounded ↔
      (s.tg_address tg).isSome = true := by
  cases htg : s.tg_address tg with
  | some a =>
    constructor
    · intro _
      rfl
    · intro _
      unfold Tipbot.bind
      rw [htg]
      rfl
  | none =>
    constructor
    · intro h
      exact absurd h (bind_free_not_already_bounded htg)
    · intro h
      cases h

/-- Witness for the amended C2 at a concrete state and inputs. -/
theorem bind_already_bounded_iff_witness :
    Tipbot.bind sOne 2 7 0 = .err .AlreadyBounded ↔
      (sOne.tg_address 7).isSome = true :=
  bind_already_bounded_iff sOne 2 7 0

theorem unbind_account_transfer_fails {s : Tipbot}
    {tr : AccountId → Balance → Bool} {w : AccountId} {p : TelegramId}
    {v : Balance} (ha : s.address_tg w = some p)
    (hp : (s.tg_address p).isSome = true) (hb : s.balances w = some v)
    (htr : tr w v = false) :
    Tipbot.unbind_account s tr w = .err .BelowSubsistenceThreshold := by
  obtain ⟨x, hx⟩ := Option.isSome_iff_exists.mp hp
  unfold Tipbot.unbind_account
  simp [ha, hx, hb, htr]

theorem tip_account_transfer_fails {s : Tipbot}
    {tr : AccountId → Balance → Bool} {c t : AccountId} {v amt : Balance}
    (hb : s.balances c = some v) (hle : amt ≤ v)
    (htr : tr t amt = false) :
    Tipbot.tip_account s tr c t amt = .err .BelowSubsistenceThreshold := by
  unfold Tipbot.tip_account
  simp [hb, hle, htr]

/-- Claim C3: whenever the external transfer primitive reports failure
during the payout of `unbind`/`force_unbind` or during the payment of
`tip`/`tip_from`, the whole operation fails with
`BelowSubsistenceThreshold`.  In this model a failed outcome
(`Outcome.err`) carries no post-state at all: the environment's
transaction rollback leaves the binding maps and the balance ledger
exactly as they were before the operation started, so the unbinding
and the debit performed before the transfer are rolled back. -/
theorem transfer_failure_atomicity :
    (∀ (s : Tipbot) (tr : AccountId → Balance → Bool) (w : AccountId)
        (p : TelegramId) (v : Balance),
      s.address_tg w = some p → (s.tg_address p).isSome = true →
      s.balances w = some v → tr w v = false →
      Tipbot.unbind s tr w = .err .BelowSubsistenceThreshold) ∧
    (∀ (s : Tipbot) (tr : AccountId → Balance → Bool) (w : AccountId)
        (p : TelegramId) (v : Balance),
      s.address_tg w = some p → (s.tg_address p).isSome = true →
      s.balances w = some v → tr w v = false →
      Tipbot.force_unbind s tr s.owner w = .err .BelowSubsistenceThreshold) ∧
    (∀ (s : Tipbot) (tr : AccountId → Balance → Bool) (c : AccountId)
        (tg : TelegramId) (target : AccountId) (v amt : Balance),
      (s.address_tg c).isSome = true → s.tg_address tg = some target →
      s.balances c = some v → amt ≤ v → tr target amt = false →
      Tipbot.tip s tr c tg amt = .err .BelowSubsistenceThreshold) ∧
    (∀ (s : Tipbot) (tr : AccountId → Balance → Bool) (f t : TelegramId)
        (fa ta : AccountId) (v amt : Balance),
      s.tg_address f = some fa → s.tg_address t = some ta →
      s.balances fa = some v → amt ≤ v → tr ta amt = false →
      Tipbot.tip_from s tr s.owner f t amt =
        .err .BelowSubsistenceThreshold) := by
  refine ⟨?_, ?_, ?_, ?_⟩
  · intro s tr w p v ha hp hb htr
    exact unbind_account_transfer_fails ha hp hb htr
  · intro s tr w p v ha hp hb htr
    unfold Tipbot.force_unbind
    rw [if_pos rfl]
    exact unbind_account_transfer_fails ha hp hb htr
  · intro s tr c tg target v amt hc ht hb hle htr
    obtain ⟨p, hp⟩ := Option.isSome_iff_exists.mp hc
    unfold Tipbot.tip
    simp only [hp, ht]
    exact tip_account_transfer_fails hb hle htr
  · intro s tr f t fa ta v amt hf ht hb hle htr
    unfold Tipbot.tip_from
    rw [if_pos rfl]
    simp only [hf, ht]
    exact tip_account_transfer_fails hb hle htr

/-- Witness for C3 at the concrete state `sBound` (wallet 1 bound to
telegram id 7 with ledger balance 100) under the always-failing
transfer oracle. -/
theorem transfer_failure_atomicity_witness :
    Tipbot.unbind sBound falseTransfer 1 = .err .BelowSubsistenceThreshold ∧
    Tipbot.force_unbind sBound falseTransfer sBound.owner 1 =
      .err .BelowSubsistenceThreshold ∧
    Tipbot.tip sBound falseTransfer 1 7 50 =
      .err .BelowSubsistenceThreshold ∧
    Tipbot.tip_from sBound falseTransfer sBound.owner 7 7 50 =
      .err .BelowSubsistenceThreshold :=
  ⟨transfer_failure_atomicity.1 sBound falseTransfer 1 7 100 rfl rfl rfl rfl,
   transfer_failure_atomicity.2.1 sBound falseTransfer 1 7 100 rfl rfl rfl
     rfl,
   transfer_failure_atomicity.2.2.1 sBound falseTransfer 1 7 1 100 50 rfl
     rfl rfl (by decide) rfl,
   transfer_failure_atomicity.2.2.2 sBound falseTransfer 7 7 1 1 100 50 rfl
     rfl rfl (by decide) rfl⟩

/-- Counterexample to claim C4 as stated: in `sBound` the caller wallet
1 is bound with ledger balance 100 and the tipped platform id 7 is
bound to wallet 1 itself (so the claim's target wallet `B` equals the
caller).  The tip of 50 succeeds, yet the target wallet's ledger
balance changes from 100 to 50 — it is not left unchanged as the claim
demands for every state in which the bindings resolve. -/
theorem tip_to_own_platform_changes_target_ledger :
    sBound.address_tg 1 = some 7 ∧
    sBound.tg_address 7 = some 1 ∧
    sBound.balances 1 = some 100 ∧
    isOk (Tipbot.tip sBound trueTransfer 1 7 50) = true ∧
    okBalances (Tipbot.tip sBound trueTransfer 1 7 50) 1 = some (some 50) :=
  ⟨rfl, rfl, rfl, rfl, rfl⟩

/-- Claim C4 (amended): for every state in which caller wallet `A` is
bound with ledger balance at least `amt` and platform id `P` is bound
to a wallet `B` distinct from `A`, a successful `tip P amt` by `A`
decreases the ledger balance of `A` by exactly `amt`, leaves the
ledger entry of `B` unchanged, pays `amt` to `B` through the external
transfer primitive (it is not credited to the ledger), and leaves both
binding maps unchanged.  (When `B = A` the single shared ledger entry
is instead decreased by `amt` and the amount is transferred back to
`A`, as the counterexample shows.) -/
theorem tip_conservation (s : Tipbot) (tr : AccountId → Balance → Bool)
    (A B : AccountId) (pA P : TelegramId) (amt v : Balance)
    (hA : s.address_tg A = some pA) (hP : s.tg_address P = some B)
    (hv : s.balances A = some v) (hle : amt ≤ v) (htr : tr B amt = true)
    (hAB : A ≠ B) :
    isOk (Tipbot.tip s tr A P amt) = true ∧
    okBalances (Tipbot.tip s tr A P amt) A = some (some (v - amt)) ∧
    okBalances (Tipbot.tip s tr A P amt) B = some (s.balances B) ∧
    okTransfers (Tipbot.tip s tr A P amt) = some [(B, amt)] ∧
    okAddrMap (Tipbot.tip s tr A P amt) = some s.address_tg ∧
    okTgMap (Tipbot.tip s tr A P amt) = some s.tg_address := by
  have hBA : B ≠ A := Ne.symm hAB
  have heq : Tipbot.tip s tr A P amt =
      .ok { s with balances := insertMap s.balances A (v - amt) }
        [(B, amt)] := by
    unfold Tipbot.tip Tipbot.tip_account
    simp [hA, hP, hv, hle, htr]
  rw [heq]
  refine ⟨rfl, ?_, ?_, rfl, rfl, rfl⟩
  · unfold okBalances okState
    simp [insertMap]
  · unfold okBalances okState
    simp [insertMap, hBA]

/-- Witness for the amended C4 at the concrete two-wallet state `sTwo`
(wallet 1 holds platform 7 and balance 100, wallet 2 holds platform 8). -/
theorem tip_conservation_witness :
    isOk (Tipbot.tip sTwo trueTransfer 1 8 30) = true ∧
    okBalances (Tipbot.tip sTwo trueTransfer 1 8 30) 1 =
      some (some (100 - 30)) ∧
    okBalances (Tipbot.tip sTwo trueTransfer 1 8 30) 2 =
      some (sTwo.balances 2) ∧
    okTransfers (Tipbot.tip sTwo trueTransfer 1 8 30) = some [(2, 30)] ∧
    okAddrMap (Tipbot.tip sTwo trueTransfer 1 8 30) =
      some sTwo.address_tg ∧
    okTgMap (Tipbot.tip sTwo trueTransfer 1 8 30) = some sTwo.tg_address :=
  tip_conservation sTwo trueTransfer 1 2 7 8 30 100 rfl rfl rfl
    (by decide) rfl (by decide)

/-- Claim C5: if wallet `w` is bound to platform id `p1` and a `bind`
of a platform id `p2` by `w` succeeds, then afterwards `p1` is free
(`wallet_of p1 = none`) and the forward map holds exactly the single
pair `w ↦ p2`.  (Success of `bind` entails that `p2` was unbound.) -/
theorem rebind_evicts (s : Tipbot) (w : AccountId) (p1 p2 : TelegramId)
    (d : Balance) (h1 : s.address_tg w = some p1)
    (h2 : isOk (Tipbot.bind s w p2 d) = true) :
    okWalletOf (Tipbot.bind s w p2 d) p1 = some none ∧
    okAddressTg (Tipbot.bind s w p2 d) w = some (some p2) := by
  cases hb : Tipbot.bind s w p2 d with
  | ok s' l =>
    obtain ⟨hfree, hl, hs⟩ := bind_ok hb
    subst hs
    constructor
    · unfold okWalletOf okState
      simp only [Option.map_some']
      unfold bindTga
      simp only [h1]
      simp [removeMap]
    · unfold okAddressTg okState
      simp only [Option.map_some']
      unfold bindAddr
      simp [insertMap]
  | err e =>
    rw [hb] at h2
    cases h2
  | abort =>
    rw [hb] at h2
    cases h2

/-- Witness for C5: wallet 1, bound to platform 7 in `sOne`, re-binds
to the free platform 9. -/
theorem rebind_evicts_witness :
    okWalletOf (Tipbot.bind sOne 1 9 0) 7 = some none ∧
    okAddressTg (Tipbot.bind sOne 1 9 0) 1 = some (some 9) :=
  rebind_evicts sOne 1 7 9 0 rfl rfl

theorem tip_account_insufficient_iff {s : Tipbot}
    {tr : AccountId → Balance → Bool} {c t : AccountId} {amt : Balance} :
    Tipbot.tip_account s tr c t amt = .err .InsufficientFunds ↔
      s.balances c = none ∨ ∃ v, s.balances c = some v ∧ v < amt := by
  unfold Tipbot.tip_account
  cases hb : s.balances c with
  | none => simp
  | some v =>
    dsimp only
    by_cases hle : amt ≤ v
    · rw [if_pos hle]
      constructor
      · intro h
        split at h
        · exact Outcome.noConfusion h
        · injection h with he
          exact Error.noConfusion he
      · rintro (h | ⟨v2, hv2, hlt⟩)
        · exact Option.noConfusion h
        · injection hv2 with he
          exact absurd (he ▸ hle) (Nat.not_le.mpr hlt)
    · rw [if_neg hle]
      constructor
      · intro _
        exact Or.inr ⟨v, rfl, Nat.lt_of_not_le hle⟩
      · intro _
        rfl

/-- Claim C6: for a `tip` or `tip_from` whose source and target
bindings resolve, the operation fails with `InsufficientFunds` exactly
when the source wallet has no ledger entry or its ledger balance is
strictly below the requested amount.  A failed outcome carries no
post-state: by the environment's rollback, ledger and binding maps are
unchanged in that case. -/
theorem insufficient_funds_iff :
    (∀ (s : Tipbot) (tr : AccountId → Balance → Bool) (c : AccountId)
        (tg : TelegramId) (target : AccountId) (amt : Balance),
      (s.address_tg c).isSome = true → s.tg_address tg = some target →
      (Tipbot.tip s tr c tg amt = .err .InsufficientFunds ↔
        s.balances c = none ∨ ∃ v, s.balances c = some v ∧ v < amt)) ∧
    (∀ (s : Tipbot) (tr : AccountId → Balance → Bool) (f t : TelegramId)
        (fa ta : AccountId) (amt : Balance),
      s.tg_address f = some fa → s.tg_address t = some ta →
      (Tipbot.tip_from s tr s.owner f t amt = .err .InsufficientFunds ↔
        s.balances fa = none ∨ ∃ v, s.balances fa = some v ∧ v < amt)) := by
  constructor
  · intro s tr c tg target amt hc ht
    obtain ⟨p, hp⟩ := Option.isSome_iff_exists.mp hc
    unfold Tipbot.tip
    simp only [hp, ht]
    exact tip_account_insufficient_iff
  · intro s tr f t fa ta amt hf ht
    unfold Tipbot.tip_from
    rw [if_pos rfl]
    simp only [hf, ht]
    exact tip_account_insufficient_iff

/-- Witness for C6: in `sTwo`, wallet 1 (balance 100) tipping 150 to
the bound platform 8 fails with `InsufficientFunds`, and the iff holds
at these concrete inputs for both `tip` and `tip_from`. -/
theorem insufficient_funds_iff_witness :
    (Tipbot.tip sTwo trueTransfer 1 8 150 = .err .InsufficientFunds ↔
      sTwo.balances 1 = none ∨
        ∃ v, sTwo.balances 1 = some v ∧ v < 150) ∧
    (Tipbot.tip_from sTwo trueTransfer sTwo.owner 7 8 150 =
        .err .InsufficientFunds ↔
      sTwo.balances 1 = none ∨
        ∃ v, sTwo.balances 1 = some v ∧ v < 150) :=
  ⟨insufficient_funds_iff.1 sTwo trueTransfer 1 8 2 150 rfl rfl,
   insufficient_funds_iff.2 sTwo trueTransfer 7 8 1 2 150 rfl rfl⟩

/-- Claim C7: `unbind` by an unbound wallet fails with `NotFound` (a
failed outcome carries no post-state, so nothing changes); a successful
`unbind` of a wallet `w` bound to platform id `p` removes both
directions of the binding, pays the wallet's full ledger balance back
to `w` through the external transfer primitive whenever that balance
is nonzero, and leaves `balance_of p = 0`. -/
theorem unbind_behaviour :
    (∀ (s : Tipbot) (tr : AccountId → Balance → Bool) (w : AccountId),
      s.address_tg w = none → Tipbot.unbind s tr w = .err .NotFound) ∧
    (∀ (s : Tipbot) (tr : AccountId → Balance → Bool) (w : AccountId)
        (p : TelegramId),
      s.address_tg w = some p → isOk (Tipbot.unbind s tr w) = true →
      okAddressTg (Tipbot.unbind s tr w) w = some none ∧
      okWalletOf (Tipbot.unbind s tr w) p = some none ∧
      (∀ v, s.balances w = some v → 0 < v →
        okTransfers (Tipbot.unbind s tr w) = some [(w, v)]) ∧
      okBalanceOfTg (Tipbot.unbind s tr w) p = some 0) := by
  constructor
  · intro s tr w ha
    unfold Tipbot.unbind Tipbot.unbind_account
    simp [ha]
  · intro s tr w p ha hok
    cases hb : Tipbot.unbind s tr w with
    | ok s' l =>
      have hb2 : Tipbot.unbind_account s tr w = .ok s' l := hb
      obtain ⟨tg, ha2, hs, hl⟩ := unbind_ok hb2
      rw [ha] at ha2
      injection ha2 with he
      subst he
      subst hs
      refine ⟨?_, ?_, ?_, ?_⟩
      · unfold okAddressTg okState
        simp [removeMap]
      · unfold okWalletOf okState
        simp [removeMap]
      · intro v hv hpos
        unfold okTransfers
        rw [hl, hv]
      · unfold okBalanceOfTg okState Tipbot.balance_of
        simp [removeMap]
    | err e =>
      rw [hb] at hok
      cases hok
    | abort =>
      rw [hb] at hok
      cases hok

/-- Witness for C7: both conjuncts instantiated concretely — an unbound
wallet 2 in `sOne`, and wallet 1 of `sBound` (bound to platform 7 with
balance 100) unbinding under the always-succeeding transfer oracle. -/
theorem unbind_behaviour_witness :
    Tipbot.unbind sOne trueTransfer 2 = .err .NotFound ∧
    (okAddressTg (Tipbot.unbind sBound trueTransfer 1) 1 = some none ∧
      okWalletOf (Tipbot.unbind sBound trueTransfer 1) 7 = some none ∧
      (∀ v, sBound.balances 1 = some v → 0 < v →
        okTransfers (Tipbot.unbind sBound trueTransfer 1) = some [(1, v)]) ∧
      okBalanceOfTg (Tipbot.unbind sBound trueTransfer 1) 7 = some 0) :=
  ⟨unbind_behaviour.1 sOne trueTransfer 2 rfl,
   unbind_behaviour.2 sBound trueTransfer 1 7 rfl rfl⟩

/-- Counterexample to claim C8 as stated: in the reachable state
`sBound`, wallet 1 is already bound to platform 7 and platform 9 is
unbound.  Binding 9 with zero deposit and immediately unbinding leaves
wallet 1 completely unbound, not bound to 7 as before: the round trip
does not return to the pre-bind state for a caller that was already
bound. -/
theorem roundtrip_bound_caller_cex :
    sBound.tg_address 9 = none ∧
    sBound.address_tg 1 = some 7 ∧
    okAddressTg (roundTrip sBound trueTransfer 1 9) 1 = some none ∧
    okAddressTg (roundTrip sBound trueTransfer 1 9) 1 ≠
      some (sBound.address_tg 1) := by
  refine ⟨rfl, rfl, rfl, ?_⟩
  intro h
  rw [show okAddressTg (roundTrip sBound trueTransfer 1 9) 1 =
      some none from rfl] at h
  injection h with h1
  exact Option.noConfusion h1

/-- Claim C8 (amended): for every state, every caller with no current
binding and no residual ledger entry (every unbound wallet in a
reachable state satisfies both), and every unbound platform id,
`bind` with zero attached deposit followed immediately by `unbind`
returns the contract to exactly the state it had before the bind.  A
caller that is already bound does not return to the pre-bind state:
its old binding is lost, as the counterexample shows. -/
theorem roundtrip_unbound_caller (s : Tipbot)
    (tr : AccountId → Balance → Bool) (caller : AccountId)
    (tg : TelegramId) (h1 : s.address_tg caller = none)
    (h2 : s.tg_address tg = none) (h3 : s.balances caller = none) :
    isOk (Tipbot.bind s caller tg 0) = true ∧
    roundTrip s tr caller tg = .ok s [] := by
  have hbind : Tipbot.bind s caller tg 0 =
      .ok { s with
              address_tg := insertMap s.address_tg caller tg
              tg_address := insertMap s.tg_address tg caller } [] := by
    unfold Tipbot.bind Tipbot.regBind
    simp [h1, h2]
  constructor
  · rw [hbind]
    rfl
  · unfold roundTrip
    rw [hbind]
    unfold Tipbot.unbind Tipbot.unbind_account
    dsimp only
    simp only [insertMap_self, h3]
    rw [removeMap_insertMap_absent tg h1, removeMap_insertMap_absent caller h2]

/-- Witness for the amended C8: a fresh contract, wallet 1 (unbound,
no ledger entry) binding the free platform 42 with zero deposit and
unbinding again. -/
theorem roundtrip_unbound_caller_witness :
    isOk (Tipbot.bind (Tipbot.new 0) 1 42 0) = true ∧
    roundTrip (Tipbot.new 0) trueTransfer 1 42 = .ok (Tipbot.new 0) [] :=
  roundtrip_unbound_caller (Tipbot.new 0) trueTransfer 1 42 rfl rfl rfl

/-- Claim C9: crediting an attached deposit onto the caller's existing
ledger entry during `bind` never silently wraps: a committed `bind`
leaves the caller's entry at the exact mathematical sum of the old
balance and the deposit, and an addition that would reach `2 ^ 128`
aborts the call instead of wrapping.  (The overflow behaviour of the
`u128` addition is fixed by the build profile, which is not part of
src/; the checked behaviour here is modelled from the spec, see
`Tipbot.bind`.) -/
theorem bind_no_silent_overflow (s : Tipbot) (c : AccountId)
    (tg : TelegramId) (d v : Balance) (hv : s.balances c = some v) :
    (∀ s' l, Tipbot.bind s c tg d = .ok s' l →
      s'.balances c = some (v + d)) ∧
    (s.tg_address tg = none → 0 < d → 2 ^ 128 ≤ v + d →
      Tipbot.bind s c tg d = .abort) := by
  constructor
  · intro s' l h
    obtain ⟨htg, hl, hs⟩ := bind_ok h
    subst hs
    show bindBal s c d c = some (v + d)
    unfold bindBal
    by_cases hd : 0 < d
    · rw [if_pos hd]
      simp [hv, insertMap]
    · rw [if_neg hd]
      have hd0 : d = 0 := Nat.eq_zero_of_not_pos hd
      rw [hd0, Nat.add_zero]
      exact hv
  · intro htg hd hover
    have hnl : ¬ v + d < 2 ^ 128 := Nat.not_lt.mpr hover
    unfold Tipbot.bind
    simp [htg, hd, hv, hnl]
    exact hover

/-- Witness for C9: wallet 1 of `sBig` holds the maximal `u128` ledger
balance; both conjuncts are instantiated there with deposit 2. -/
theorem bind_no_silent_overflow_witness :
    (∀ s' l, Tipbot.bind sBig 1 9 2 = .ok s' l →
      s'.balances 1 = some (2 ^ 128 - 1 + 2)) ∧
    (sBig.tg_address 9 = none → 0 < 2 → 2 ^ 128 ≤ 2 ^ 128 - 1 + 2 →
      Tipbot.bind sBig 1 9 2 = .abort) :=
  bind_no_silent_overflow sBig 1 9 2 (2 ^ 128 - 1) rfl

/-- Claim C10: `force_unbind` and `tip_from` invoked by any caller
other than the owner fail with `NotAllowed` (a failed outcome carries
no post-state, so binding maps and ledger are untouched); invoked by
the owner, the owner check passes and the operation proceeds as the
respective unbind/tip on the resolved accounts. -/
theorem owner_gating :
    (∀ (s : Tipbot) (tr : AccountId → Balance → Bool) (c a : AccountId),
      c ≠ s.owner → Tipbot.force_unbind s tr c a = .err .NotAllowed) ∧
    (∀ (s : Tipbot) (tr : AccountId → Balance → Bool) (c : AccountId)
        (f t : TelegramId) (amt : Balance),
      c ≠ s.owner → Tipbot.tip_from s tr c f t amt = .err .NotAllowed) ∧
    (∀ (s : Tipbot) (tr : AccountId → Balance → Bool) (a : AccountId),
      Tipbot.force_unbind s tr s.owner a = Tipbot.unbind_account s tr a) ∧
    (∀ (s : Tipbot) (tr : AccountId → Balance → Bool) (f t : TelegramId)
        (amt : Balance) (fa ta : AccountId),
      s.tg_address f = some fa → s.tg_address t = some ta →
      Tipbot.tip_from s tr s.owner f t amt =
        Tipbot.tip_account s tr fa ta amt) := by
  refine ⟨?_, ?_, ?_, ?_⟩
  · intro s tr c a hc
    unfold Tipbot.force_unbind
    rw [if_neg hc]
  · intro s tr c f t amt hc
    unfold Tipbot.tip_from
    rw [if_neg hc]
  · intro s tr a
    unfold Tipbot.force_unbind
    rw [if_pos rfl]
  · intro s tr f t amt fa ta hf ht
    unfold Tipbot.tip_from
    rw [if_pos rfl]
    simp only [hf, ht]

/-- Witness for C10 at `sBound` (owner 0): the non-owner wallet 5 is
rejected by both gated operations, and the owner path reduces to the
underlying operation. -/
theorem owner_gating_witness :
    Tipbot.force_unbind sBound trueTransfer 5 1 = .err .NotAllowed ∧
    Tipbot.tip_from sBound trueTransfer 5 7 7 10 = .err .NotAllowed ∧
    Tipbot.force_unbind sBound trueTransfer sBound.owner 1 =
      Tipbot.unbind_account sBound trueTransfer 1 ∧
    Tipbot.tip_from sBound trueTransfer sBound.owner 7 7 10 =
      Tipbot.tip_account sBound trueTransfer 1 1 10 :=
  ⟨owner_gating.1 sBound trueTransfer 5 1 (by decide),
   owner_gating.2.1 sBound trueTransfer 5 7 7 10 (by decide),
   owner_gating.2.2.1 sBound trueTransfer 1,
   owner_gating.2.2.2 sBound trueTransfer 7 7 10 1 1 rfl rfl⟩
